import Mathlib

/-!
Verification of the OneIT chat frontend (src/frontend/src/App.js).

The whole program is the React component `App`. We shallow-embed its
state and its handlers as pure Lean functions:

* component state (the `useState` hooks) becomes the structure `AppState`;
* `sendMessage` becomes a pure state transformer that additionally takes
  the outcome of the single `fetch` to the chat endpoint as a parameter
  (`FetchOutcome`) and returns the list of requests it issued;
* `handleKeyPress` becomes a function from a key event to the number of
  `sendMessage` invocations it triggers;
* `formatMessage` becomes a string transformation modelling the two
  regex replacements the source performs;
* the suggestions panel's rendering condition and its `slice(0, 4)` are
  embedded as `suggestionsPanelShown` and `renderedSuggestions`.

JavaScript `undefined` for a message text (a well-formed JSON body whose
`response` field is absent, read on the success branch) is modelled as
`Option.none`; a JS string is `Option.some`.  JS timestamps (`new Date()`)
are modelled as naturals handed to `sendMessage` by the caller.
-/

namespace OneIT

/-- The `type` field of a message object: the source uses the string
literals "user" and "bot". -/
inductive MsgType where
  | user
  | bot
deriving DecidableEq, Repr

/-- One entry of the `messages` array: an object with fields `type`,
`text` and `timestamp`.  `text` is `Option String` because on the
success branch the source stores `data.response`, which is `undefined`
when the parsed JSON body lacks the field. -/
structure ChatTurn where
  type : MsgType
  text : Option String
  timestamp : Nat
deriving DecidableEq, Repr

/-- The component state: the four `useState` hooks that the claims are
about (`messages`, `input`, `isLoading`, `suggestions`).  `isListening`
is included for completeness of the embedding. -/
structure AppState where
  messages : List ChatTurn
  input : String
  isLoading : Bool
  suggestions : List String
  isListening : Bool
deriving DecidableEq, Repr

/-- The seed greeting text from the initial `useState` value. -/
def greetingText : String :=
  "👋 Hi there! I'm **OneIT**, your placement companion! 🎓\n\nI'm here to help you with:\n• Company interview processes\n• Eligibility criteria\n• Package details\n• Interview tips & experiences\n\nWhat would you like to know about placements today?"

/-- The seed greeting turn; its timestamp (a `new Date()` at mount) is 0. -/
def greetingTurn : ChatTurn :=
  { type := .bot, text := some greetingText, timestamp := 0 }

/-- The initial component state: `messages` seeded with the greeting,
empty `input`, `isLoading` false, no suggestions, not listening. -/
def initState : AppState :=
  { messages := [greetingTurn]
    input := ""
    isLoading := false
    suggestions := []
    isListening := false }

/-- The body obtained from the chat response.  `json resp err` models a
body that `response.json()` parses, with `resp` the `response` field and
`err` the `error` field (`none` = absent / `undefined`).  `malformed`
models a body on which `response.json()` (or the subsequent field
access, e.g. on a `null` body) throws, which the source's `catch`
swallows. -/
inductive FetchBody where
  | json (resp : Option String) (err : Option String)
  | malformed
deriving DecidableEq, Repr

/-- The outcome of the `fetch` to `http://localhost:5000/api/chat`:
either a response with `response.ok` status flag and a body, or a
rejected promise (network failure). -/
inductive FetchOutcome where
  | response (ok : Bool) (body : FetchBody)
  | networkError
deriving DecidableEq, Repr

/-- JavaScript `a || b` on `data.error`: falls back when the field is
absent (`undefined`) or the empty string (both falsy). -/
def jsOrElse (a : Option String) (b : String) : String :=
  match a with
  | some s => if s = "" then b else s
  | none => b

/-- The template-literal prefix of the server-error branch. -/
def errorPrefix : String := "⚠️ Error: "

/-- The generic fallback used when `data.error` is falsy. -/
def fallbackErrText : String := "Something went wrong"

/-- The fixed message appended by the `catch` block. -/
def connectFailText : String :=
  "⚠️ Failed to connect to the server. Please make sure the backend is running."

/-- The WhiteSpace and LineTerminator characters that JavaScript
`String.prototype.trim` removes: tab, LF, VT, FF, CR, space, NBSP,
BOM, the Unicode space separators and the two line separators. -/
def isJsWhitespace (c : Char) : Bool :=
  c = ' ' || c = '\t' || c = '\n' || c = '\r' ||
  c = Char.ofNat 0x0b || c = Char.ofNat 0x0c || c = Char.ofNat 0xa0 ||
  c = Char.ofNat 0x1680 ||
  (Char.ofNat 0x2000 ≤ c && c ≤ Char.ofNat 0x200a) ||
  c = Char.ofNat 0x2028 || c = Char.ofNat 0x2029 ||
  c = Char.ofNat 0x202f || c = Char.ofNat 0x205f ||
  c = Char.ofNat 0x3000 || c = Char.ofNat 0xfeff

/-- JavaScript `s.trim()`: strips leading and trailing whitespace. -/
def jsTrim (s : String) : String :=
  String.mk (((s.data.dropWhile isJsWhitespace).reverse.dropWhile isJsWhitespace).reverse)

/-- The state right after the request is issued: `sendMessage` has
appended the user message, cleared the input and set `isLoading` —
the three `set` calls before the `try` block. -/
def sendMessageStart (st : AppState) (messageText : String) (tUser : Nat) :
    AppState :=
  { st with
    messages := st.messages ++ [{ type := .user, text := some messageText, timestamp := tUser }]
    input := ""
    isLoading := true }

/-- The text of the bot turn `sendMessage` appends for a given fetch
outcome: `data.response` on `response.ok`, the formatted error on a
non-ok parsed body, and the fixed connection-failure text when the
fetch rejects or the body handling throws. -/
def botTextFor (outcome : FetchOutcome) : Option String :=
  match outcome with
  | .response ok body =>
    match body with
    | .json resp err =>
      if ok then resp else some (errorPrefix ++ jsOrElse err fallbackErrText)
    | .malformed => some connectFailText
  | .networkError => some connectFailText

/-- `sendMessage(messageText)` from App.js.  Returns the new state and
the list of chat requests issued (each request is its `message` body).
`tUser` and `tBot` are the two `new Date()` timestamps.  The guard
`if (!messageText.trim()) return;` makes the call a no-op for
whitespace-only input. -/
def sendMessage (st : AppState) (messageText : String)
    (outcome : FetchOutcome) (tUser tBot : Nat) : AppState × List String :=
  if jsTrim messageText = "" then
    (st, [])
  else
    let st1 := sendMessageStart st messageText tUser
    let botMessage : ChatTurn :=
      { type := .bot, text := botTextFor outcome, timestamp := tBot }
    ({ st1 with
        messages := st1.messages ++ [botMessage]
        isLoading := false },
      [messageText])

/-- A keyboard event as read by `handleKeyPress`: the source only
consults `e.key` and `e.shiftKey`; the other modifier flags are carried
so that claims about them can be stated. -/
structure KeyEvent where
  key : String
  shiftKey : Bool
  ctrlKey : Bool
  altKey : Bool
  metaKey : Bool
deriving DecidableEq, Repr

/-- `handleKeyPress(e)`: the number of `sendMessage()` calls the handler
makes.  The source submits exactly when `e.key === 'Enter' &&
!e.shiftKey`. -/
def handleKeyPress (e : KeyEvent) : Nat :=
  if e.key = "Enter" ∧ e.shiftKey = false then 1 else 0

/-!
`formatMessage(text)` performs, in order,
`text.replace(/\x2a\x2a(.*?)\x2a\x2a/g, strong-tags)` and
`text.replace(/\n/g, br-tag)`, and returns `null` for a falsy `text`
(`undefined` or the empty string).  We model the first regex exactly:
the JS engine scans left to right; at the leftmost position where the
literal `**` matches, the lazy group `(.*?)` takes the fewest
characters — none of which may be an ECMAScript LineTerminator, since
`.` without the s flag matches any character except LF, CR, U+2028 and
U+2029 — such that a closing `**` follows; matching resumes after the
replaced span.
-/

/-- The ECMAScript LineTerminator characters, which `.` without the
s flag does not match: LF, CR, LINE SEPARATOR and PARAGRAPH SEPARATOR. -/
def isLineTerminator (c : Char) : Bool :=
  c = '\n' || c = '\r' || c = Char.ofNat 0x2028 || c = Char.ofNat 0x2029

/-- Finds the lazy match of `(.*?)\x2a\x2a` at the start of `l`: the
shortest split `l = inner ++ "**" ++ rest` with no LineTerminator in
`inner`.  Returns `(inner, rest)`, or `none` when no closing `**`
occurs before a LineTerminator or the end. -/
def findClose : List Char → Option (List Char × List Char)
  | [] => none
  | [_] => none
  | c1 :: c2 :: rest =>
    if c1 = '*' ∧ c2 = '*' then some ([], rest)
    else if isLineTerminator c1 then none
    else
      match findClose (c2 :: rest) with
      | some (inner, rest2) => some (c1 :: inner, rest2)
      | none => none

/-- The global lazy bold replacement on the character list: the scan of
`String.prototype.replace` with `/\x2a\x2a(.*?)\x2a\x2a/g`. -/
def boldAux : List Char → List Char
  | [] => []
  | [c] => [c]
  | c1 :: c2 :: rest =>
    if c1 = '*' ∧ c2 = '*' then
      match h : findClose rest with
      | some (inner, rest2) =>
        "<strong>".data ++ inner ++ "</strong>".data ++ boldAux rest2
      | none => '*' :: boldAux ('*' :: rest)
    else c1 :: boldAux (c2 :: rest)
termination_by l => l.length
decreasing_by
  · have key : ∀ (l inner rest2' : List Char),
        findClose l = some (inner, rest2') → rest2'.length + 2 ≤ l.length := by
      intro l
      induction l with
      | nil => intro inner rest2' hc; simp [findClose] at hc
      | cons a t ih =>
        intro inner rest2' hc
        cases t with
        | nil => simp [findClose] at hc
        | cons b t' =>
          simp only [findClose] at hc
          split at hc
          · cases hc; simp
          · split at hc
            · exact absurd hc (by simp)
            · split at hc
              · rename_i inner2 rest3 heq
                cases hc
                have := ih _ _ heq
                simp only [List.length_cons] at this ⊢
                omega
              · exact absurd hc (by simp)
    have := key rest inner rest2 h
    simp only [List.length_cons]
    omega
  · simp
  · simp

/-- The newline replacement `replace(/\n/g, br-tag)` on the character
list. -/
def nlAux : List Char → List Char
  | [] => []
  | c :: rest => if c = '\n' then "<br/>".data ++ nlAux rest else c :: nlAux rest

/-- `formatMessage(text)` from App.js: `null` on falsy input (modelled
`none` for `undefined` and for the empty string), otherwise the bold
replacement followed by the newline replacement.  The surrounding
`span dangerouslySetInnerHTML` is rendering glue and is not modelled. -/
def formatMessage (text : Option String) : Option String :=
  match text with
  | none => none
  | some s =>
    if s = "" then none
    else some (String.mk (nlAux (boldAux s.data)))

/-- The suggestions panel's visibility condition:
`messages.length === 1 && suggestions.length > 0`. -/
def suggestionsPanelShown (messages : List ChatTurn) (suggestions : List String) : Bool :=
  messages.length = 1 && decide (0 < suggestions.length)

/-- The suggestion chips rendered when the panel is shown:
`suggestions.slice(0, 4)`, else nothing is rendered. -/
def renderedSuggestions (messages : List ChatTurn) (suggestions : List String) :
    List String :=
  if suggestionsPanelShown messages suggestions then suggestions.take 4 else []

/-- C1: for every input string that is non-empty after trimming, one call of
`sendMessage` appends exactly one user turn followed by exactly one bot turn —
no more, no fewer — whatever the fetch outcome (success, server error or
network failure), and issues exactly one request. -/
theorem sendMessage_one_user_one_bot (st : AppState) (messageText : String)
    (outcome : FetchOutcome) (tUser tBot : Nat)
    (h : jsTrim messageText ≠ "") :
    (sendMessage st messageText outcome tUser tBot).1.messages =
      st.messages ++
        [{ type := .user, text := some messageText, timestamp := tUser },
         { type := .bot, text := botTextFor outcome, timestamp := tBot }] ∧
    (sendMessage st messageText outcome tUser tBot).2 = [messageText] := by
  constructor <;> simp [sendMessage, sendMessageStart, h]

/-- Witness for C1: the concrete input "hi" with a network failure. -/
theorem sendMessage_one_user_one_bot_witness :
    jsTrim "hi" ≠ "" ∧
    ((sendMessage initState "hi" .networkError 1 2).1.messages =
      initState.messages ++
        [{ type := .user, text := some "hi", timestamp := 1 },
         { type := .bot, text := botTextFor .networkError, timestamp := 2 }] ∧
     (sendMessage initState "hi" .networkError 1 2).2 = ["hi"]) :=
  ⟨by decide, sendMessage_one_user_one_bot initState "hi" .networkError 1 2 (by decide)⟩

/-- C2 counterexample: two concrete responses with malformed payloads on which
the appended bot turn is not a formatted error message.  A 2xx response whose
parsed body lacks the `response` field appends a bot turn with no text at all
(`undefined`, modelled `none`); and a status-400 response whose body does not
parse appends the fixed connection-failure message of the `catch` block, not
the formatted error message built from the generic fallback. -/
theorem sendMessage_malformed_payload_counterexample :
    (sendMessage initState "hi" (.response true (.json none none)) 1 2).1.messages.getLast? =
      some { type := .bot, text := none, timestamp := 2 } ∧
    (sendMessage initState "hi" (.response false .malformed) 1 2).1.messages.getLast? =
      some { type := .bot, text := some connectFailText, timestamp := 2 } ∧
    connectFailText ≠ errorPrefix ++ fallbackErrText := by
  decide

/-- C2 amended: on a non-success status whose body parses as JSON, the appended
bot turn is the formatted error message — the prefix "⚠️ Error: " followed by
the server-provided error text when present and non-empty, else by the generic
fallback — and for a status-400 response with body field error = "Y" its text
contains "Y" (as a suffix of the character list); a body that does not parse
instead yields the fixed connection-failure message (see the counterexample
above). -/
theorem sendMessage_server_error_text (st : AppState) (messageText err : String)
    (rfield : Option String) (tUser tBot : Nat)
    (h : jsTrim messageText ≠ "") (herr : err ≠ "") :
    (sendMessage st messageText (.response false (.json rfield (some err))) tUser tBot).1.messages =
      st.messages ++
        [{ type := .user, text := some messageText, timestamp := tUser },
         { type := .bot, text := some (errorPrefix ++ err), timestamp := tBot }] ∧
    err.data <:+ (errorPrefix ++ err).data ∧
    (sendMessage st messageText (.response false (.json rfield none)) tUser tBot).1.messages =
      st.messages ++
        [{ type := .user, text := some messageText, timestamp := tUser },
         { type := .bot, text := some (errorPrefix ++ fallbackErrText), timestamp := tBot }] := by
  refine ⟨?_, ?_, ?_⟩
  · simp [sendMessage, sendMessageStart, botTextFor, jsOrElse, h, herr]
  · rw [String.data_append]
    exact List.suffix_append _ _
  · simp [sendMessage, sendMessageStart, botTextFor, jsOrElse, h]

/-- Witness for the amended C2: status 400 with error text "Y". -/
theorem sendMessage_server_error_text_witness :
    jsTrim "hi" ≠ "" ∧ "Y" ≠ "" ∧
    ((sendMessage initState "hi" (.response false (.json none (some "Y"))) 1 2).1.messages =
      initState.messages ++
        [{ type := .user, text := some "hi", timestamp := 1 },
         { type := .bot, text := some (errorPrefix ++ "Y"), timestamp := 2 }] ∧
     "Y".data <:+ (errorPrefix ++ "Y").data ∧
     (sendMessage initState "hi" (.response false (.json none none)) 1 2).1.messages =
      initState.messages ++
        [{ type := .user, text := some "hi", timestamp := 1 },
         { type := .bot, text := some (errorPrefix ++ fallbackErrText), timestamp := 2 }]) :=
  ⟨by decide, by decide,
    sendMessage_server_error_text initState "hi" "Y" none 1 2 (by decide) (by decide)⟩

/-- C3: the busy flag `isLoading` is true in the state in which the request is
issued (the `set` calls before the `try`) and false once `sendMessage`
returns, for every fetch outcome — success, server error and network failure
alike. -/
theorem sendMessage_busy_flag (st : AppState) (messageText : String)
    (outcome : FetchOutcome) (tUser tBot : Nat)
    (h : jsTrim messageText ≠ "") :
    (sendMessageStart st messageText tUser).isLoading = true ∧
    (sendMessage st messageText outcome tUser tBot).1.isLoading = false :=
  ⟨rfl, by simp [sendMessage, h]⟩

/-- Witness for C3: the concrete input "hi" with a server error. -/
theorem sendMessage_busy_flag_witness :
    (sendMessageStart initState "hi" 1).isLoading = true ∧
    (sendMessage initState "hi" (.response false .malformed) 1 2).1.isLoading = false :=
  sendMessage_busy_flag initState "hi" (.response false .malformed) 1 2 (by decide)

/-- C4: on a 2xx response whose body carries response = X, the appended bot
turn's text is exactly X, unaltered, for any value of the error field. -/
theorem sendMessage_success_exact (st : AppState) (messageText respText : String)
    (err : Option String) (tUser tBot : Nat)
    (h : jsTrim messageText ≠ "") :
    (sendMessage st messageText (.response true (.json (some respText) err)) tUser tBot).1.messages =
      st.messages ++
        [{ type := .user, text := some messageText, timestamp := tUser },
         { type := .bot, text := some respText, timestamp := tBot }] := by
  simp [sendMessage, sendMessageStart, botTextFor, h]

/-- Witness for C4: response text "X". -/
theorem sendMessage_success_exact_witness :
    jsTrim "hi" ≠ "" ∧
    (sendMessage initState "hi" (.response true (.json (some "X") none)) 1 2).1.messages =
      initState.messages ++
        [{ type := .user, text := some "hi", timestamp := 1 },
         { type := .bot, text := some "X", timestamp := 2 }] :=
  ⟨by decide, sendMessage_success_exact initState "hi" "X" none 1 2 (by decide)⟩

/-- C5: on a network failure the appended bot turn's text is the one fixed
connection-failure constant, the same for every submitted message — the
statement is uniform in `st` and `messageText`, so the text is independent of
the request content. -/
theorem sendMessage_network_failure_fixed (st : AppState) (messageText : String)
    (tUser tBot : Nat) (h : jsTrim messageText ≠ "") :
    (sendMessage st messageText .networkError tUser tBot).1.messages =
      st.messages ++
        [{ type := .user, text := some messageText, timestamp := tUser },
         { type := .bot, text := some connectFailText, timestamp := tBot }] := by
  simp [sendMessage, sendMessageStart, botTextFor, h]

/-- Witness for C5: the concrete input "anything". -/
theorem sendMessage_network_failure_fixed_witness :
    jsTrim "anything" ≠ "" ∧
    (sendMessage initState "anything" .networkError 1 2).1.messages =
      initState.messages ++
        [{ type := .user, text := some "anything", timestamp := 1 },
         { type := .bot, text := some connectFailText, timestamp := 2 }] :=
  ⟨by decide, sendMessage_network_failure_fixed initState "anything" 1 2 (by decide)⟩

/-- C6: submitting a string that trims to empty is a complete no-op: the state
(messages and input draft included) is returned unchanged and no request is
issued. -/
theorem sendMessage_blank_noop (st : AppState) (messageText : String)
    (outcome : FetchOutcome) (tUser tBot : Nat)
    (h : jsTrim messageText = "") :
    sendMessage st messageText outcome tUser tBot = (st, []) := by
  simp [sendMessage, h]

/-- Witness for C6: a whitespace-only draft of spaces, a tab and a newline. -/
theorem sendMessage_blank_noop_witness :
    jsTrim " \t\n " = "" ∧
    sendMessage initState " \t\n " .networkError 1 2 = (initState, []) :=
  ⟨by decide, sendMessage_blank_noop initState " \t\n " .networkError 1 2 (by decide)⟩

/-- C7: the conversation starts seeded with the single greeting turn (so it is
never empty), and `sendMessage` — the only operation that touches `messages` —
is append-only: the previous sequence is always a prefix of the new one. -/
theorem messages_append_only (st : AppState) (messageText : String)
    (outcome : FetchOutcome) (tUser tBot : Nat) :
    initState.messages = [greetingTurn] ∧
    st.messages <+: (sendMessage st messageText outcome tUser tBot).1.messages := by
  refine ⟨rfl, ?_⟩
  by_cases h : jsTrim messageText = ""
  · simp [sendMessage, h]
  · simp only [sendMessage, sendMessageStart, if_neg h]
    exact (List.prefix_append _ _).trans (List.prefix_append _ _)

/-- C8 counterexample: a Ctrl+Enter key press — Enter with a modifier held —
does trigger a submit, because `handleKeyPress` consults only `shiftKey`. -/
theorem handleKeyPress_ctrl_enter_counterexample :
    (KeyEvent.mk "Enter" false true false false).ctrlKey = true ∧
    handleKeyPress (KeyEvent.mk "Enter" false true false false) = 1 := by
  decide

/-- C8 amended: a Shift+Enter key press never triggers a submit, and an Enter
press without Shift triggers exactly one submit, regardless of the other
modifiers (which the handler does not consult). -/
theorem handleKeyPress_shift_only (e : KeyEvent) (hk : e.key = "Enter") :
    handleKeyPress e = if e.shiftKey then 0 else 1 := by
  cases hsh : e.shiftKey <;> simp [handleKeyPress, hk, hsh]

/-- Witness for the amended C8: Shift+Enter (no submit). -/
theorem handleKeyPress_shift_only_witness :
    handleKeyPress (KeyEvent.mk "Enter" true false false false) =
      if (KeyEvent.mk "Enter" true false false false).shiftKey then 0 else 1 :=
  handleKeyPress_shift_only (KeyEvent.mk "Enter" true false false false) rfl

/-- C10: whenever the suggestions panel is shown, the rendered chips are
exactly `suggestions.slice(0, 4)`: at most four of them, and a prefix of the
fetched list (so in fetched order), even when the backend returned more. -/
theorem renderedSuggestions_at_most_four (messages : List ChatTurn)
    (suggestions : List String)
    (h : suggestionsPanelShown messages suggestions = true) :
    renderedSuggestions messages suggestions = suggestions.take 4 ∧
    (renderedSuggestions messages suggestions).length ≤ 4 ∧
    renderedSuggestions messages suggestions <+: suggestions := by
  refine ⟨by simp [renderedSuggestions, h], ?_, ?_⟩
  · simp only [renderedSuggestions, h, if_pos, List.length_take]
    exact min_le_left _ _
  · simp only [renderedSuggestions, h, if_pos]
    exact List.take_prefix _ _

/-- Witness for C10: five fetched suggestions, seed-only conversation. -/
theorem renderedSuggestions_at_most_four_witness :
    suggestionsPanelShown [greetingTurn] ["a", "b", "c", "d", "e"] = true ∧
    (renderedSuggestions [greetingTurn] ["a", "b", "c", "d", "e"] =
        ["a", "b", "c", "d", "e"].take 4 ∧
      (renderedSuggestions [greetingTurn] ["a", "b", "c", "d", "e"]).length ≤ 4 ∧
      renderedSuggestions [greetingTurn] ["a", "b", "c", "d", "e"] <+:
        ["a", "b", "c", "d", "e"]) :=
  ⟨by decide, renderedSuggestions_at_most_four [greetingTurn] _ (by decide)⟩


/-- Unfolding lemma: when a position does not open a bold span, the scan
emits one character and continues. -/
theorem boldAux_cons2 (c1 c2 : Char) (rest : List Char) (h : ¬(c1 = '*' ∧ c2 = '*')) :
    boldAux (c1 :: c2 :: rest) = c1 :: boldAux (c2 :: rest) := by
  rw [boldAux, if_neg h]

/-- Unfolding lemma: at an opening double asterisk whose lazy close is
found, the span is replaced by the strong-tagged inner text and the scan
continues after the close. -/
theorem boldAux_open_some (rest inner rest2 : List Char)
    (hf : findClose rest = some (inner, rest2)) :
    boldAux ('*' :: '*' :: rest) =
      "<strong>".data ++ inner ++ "</strong>".data ++ boldAux rest2 := by
  rw [boldAux, if_pos ⟨rfl, rfl⟩]
  split
  · rename_i inner2 rest3 heq
    rw [hf] at heq
    simp only [Option.some.injEq, Prod.mk.injEq] at heq
    rw [heq.1, heq.2]
  · rename_i heq
    rw [hf] at heq
    exact absurd heq (by simp)

/-- The lazy close of a star-free, LineTerminator-free inner text is
the first double asterisk after it. -/
theorem findClose_append (l t : List Char) (hs : '*' ∉ l)
    (hn : ∀ c ∈ l, isLineTerminator c = false) :
    findClose (l ++ '*' :: '*' :: t) = some (l, t) := by
  induction l with
  | nil => simp [findClose]
  | cons c u ih =>
    simp only [List.mem_cons, not_or] at hs
    have hc : c ≠ '*' := fun hh => hs.1 hh.symm
    have hcn : ¬ isLineTerminator c = true := by
      simp [hn c (List.mem_cons_self c u)]
    have ih2 := ih hs.2 fun c' hc' => hn c' (List.mem_cons_of_mem c hc')
    cases u with
    | nil =>
      simp [findClose, hc, hcn]
    | cons d v =>
      simp only [List.cons_append] at ih2 ⊢
      rw [findClose]
      · rw [if_neg (fun hh => hc hh.1), if_neg hcn, ih2]

/-- A star-free prefix passes through the bold replacement unchanged. -/
theorem boldAux_plain_prefix (s r : List Char) (hs : '*' ∉ s) :
    boldAux (s ++ r) = s ++ boldAux r := by
  induction s with
  | nil => rfl
  | cons c u ih =>
    simp only [List.mem_cons, not_or] at hs
    have hc : c ≠ '*' := fun hh => hs.1 hh.symm
    have ih2 := ih hs.2
    cases hur : u ++ r with
    | nil =>
      obtain ⟨hu, hr⟩ := List.append_eq_nil.mp hur
      subst hu; subst hr
      simp [boldAux]
    | cons d v =>
      simp only [List.cons_append, hur]
      rw [boldAux_cons2 c d v (fun hh => hc hh.1), ← hur, ih2]

/-- A star-free text passes through the bold replacement unchanged. -/
theorem boldAux_no_star (l : List Char) (h : '*' ∉ l) : boldAux l = l := by
  have h2 := boldAux_plain_prefix l [] h
  rw [List.append_nil] at h2
  rw [h2]
  have h0 : boldAux [] = [] := by rw [boldAux]
  rw [h0, List.append_nil]

/-- The newline replacement distributes over append. -/
theorem nlAux_append (a b : List Char) : nlAux (a ++ b) = nlAux a ++ nlAux b := by
  induction a with
  | nil => rfl
  | cons c u ih =>
    by_cases h : c = '\n' <;> simp [nlAux, h, ih]

/-- A newline-free text passes through the newline replacement unchanged. -/
theorem nlAux_no_newline (l : List Char) (h : '\n' ∉ l) : nlAux l = l := by
  induction l with
  | nil => rfl
  | cons c u ih =>
    simp only [List.mem_cons, not_or] at h
    have hc : c ≠ '\n' := fun hh => h.1 hh.symm
    simp [nlAux, hc, ih h.2]

/-- Strings with equal character data are equal. -/
theorem eq_of_data_eq (a b : String) (h : a.data = b.data) : a = b := by
  cases a; cases b; cases h; rfl

/-- A list free of LineTerminators contains no newline in particular. -/
theorem no_newline_of_no_lineTerminator (l : List Char)
    (h : ∀ c ∈ l, isLineTerminator c = false) : '\n' ∉ l :=
  fun hm => absurd (h '\n' hm) (by decide)

/-- C9: the formatting step (i) renders a double-asterisk-delimited span —
whose inner text, like the regex dot, excludes the LineTerminators — as an
emphasized (strong-tagged) span within any star-free, LineTerminator-free
context, (ii) renders a newline character as a br line break, and (iii)
interprets no other markup: any text free of the two recognized markers is
returned verbatim. -/
theorem formatMessage_markup (s inner t : String)
    (hs1 : '*' ∉ s.data) (hs2 : ∀ c ∈ s.data, isLineTerminator c = false)
    (hi1 : '*' ∉ inner.data) (hi2 : ∀ c ∈ inner.data, isLineTerminator c = false)
    (ht1 : '*' ∉ t.data) (ht2 : ∀ c ∈ t.data, isLineTerminator c = false)
    (hne : s ≠ "") :
    formatMessage (some (s ++ "**" ++ inner ++ "**" ++ t)) =
      some (s ++ "<strong>" ++ inner ++ "</strong>" ++ t) ∧
    formatMessage (some (s ++ "\n" ++ t)) = some (s ++ "<br/>" ++ t) ∧
    formatMessage (some s) = some s := by
  have hs2n := no_newline_of_no_lineTerminator _ hs2
  have hi2n := no_newline_of_no_lineTerminator _ hi2
  have ht2n := no_newline_of_no_lineTerminator _ ht2
  refine ⟨?_, ?_, ?_⟩
  · have hdata : (s ++ "**" ++ inner ++ "**" ++ t).data
        = s.data ++ ('*' :: '*' :: (inner.data ++ '*' :: '*' :: t.data)) := by
      simp [String.data_append]
    have hnil : (s ++ "**" ++ inner ++ "**" ++ t).data ≠ [] := by
      rw [hdata]; simp
    have hne1 : (s ++ "**" ++ inner ++ "**" ++ t) ≠ "" :=
      fun hh => hnil (by rw [hh])
    simp only [formatMessage, if_neg hne1]
    rw [hdata, boldAux_plain_prefix _ _ hs1,
      boldAux_open_some _ inner.data t.data (findClose_append _ _ hi1 hi2),
      boldAux_no_star _ ht1]
    have hnl : '\n' ∉ s.data ++ ("<strong>".data ++ inner.data ++ "</strong>".data ++ t.data) := by
      intro hmem
      simp only [List.mem_append, or_assoc] at hmem
      rcases hmem with h | h | h | h | h
      · exact hs2n h
      · revert h; decide
      · exact hi2n h
      · revert h; decide
      · exact ht2n h
    rw [nlAux_no_newline _ hnl]
    exact congrArg some (eq_of_data_eq _ _ (by simp [String.data_append]))
  · have hdata : (s ++ "\n" ++ t).data = s.data ++ '\n' :: t.data := by
      simp [String.data_append]
    have hnil : (s ++ "\n" ++ t).data ≠ [] := by
      rw [hdata]; simp
    have hne2 : (s ++ "\n" ++ t) ≠ "" := fun hh => hnil (by rw [hh])
    simp only [formatMessage, if_neg hne2]
    have hnostar : '*' ∉ s.data ++ '\n' :: t.data := by
      intro hmem
      simp only [List.mem_append, List.mem_cons, or_assoc] at hmem
      rcases hmem with h | h | h
      · exact hs1 h
      · revert h; decide
      · exact ht1 h
    rw [hdata, boldAux_no_star _ hnostar, nlAux_append,
      nlAux_no_newline _ hs2n]
    have hbr : nlAux ('\n' :: t.data) = "<br/>".data ++ t.data := by
      simp [nlAux, nlAux_no_newline _ ht2n]
    rw [hbr]
    exact congrArg some (eq_of_data_eq _ _ (by simp [String.data_append]))
  · simp only [formatMessage, if_neg hne]
    rw [boldAux_no_star _ hs1, nlAux_no_newline _ hs2n]

/-- Witness for C9 at the concrete context a, inner text b, suffix c. -/
theorem formatMessage_markup_witness :
    ('*' ∉ "a".data ∧ (∀ c ∈ "a".data, isLineTerminator c = false) ∧
      '*' ∉ "b".data ∧ (∀ c ∈ "b".data, isLineTerminator c = false) ∧
      '*' ∉ "c".data ∧ (∀ c ∈ "c".data, isLineTerminator c = false) ∧ "a" ≠ "") ∧
    (formatMessage (some ("a" ++ "**" ++ "b" ++ "**" ++ "c")) =
        some ("a" ++ "<strong>" ++ "b" ++ "</strong>" ++ "c") ∧
      formatMessage (some ("a" ++ "\n" ++ "c")) = some ("a" ++ "<br/>" ++ "c") ∧
      formatMessage (some "a") = some "a") :=
  ⟨by decide,
    formatMessage_markup "a" "b" "c" (by decide) (by decide) (by decide)
      (by decide) (by decide) (by decide) (by decide)⟩

end OneIT
